import Mathlib

/-!
# Verification of `system_specs_collector/cli.py`

A shallow embedding of the data model and operations of the
system-specs-collector tool, together with theorems settling the spec's
claims about it.

Python values that flow through the tool (nested dicts/lists of scalars)
are modelled by `PyVal`.  Python `dict`s are modelled as association
lists in insertion order; the `dict(items)` constructor (first-occurrence
position, last-occurrence value) is `dictOfList`.
-/

/-- A Python value as used by the collector: `None`, numbers, strings,
dicts (insertion-ordered association lists) and lists.  Python floats are
modelled by rationals. -/
inductive PyVal : Type where
  | none : PyVal
  | int (i : Int) : PyVal
  | rat (q : ℚ) : PyVal
  | str (s : String) : PyVal
  | dict (entries : List (String × PyVal)) : PyVal
  | list (elems : List PyVal) : PyVal

/-- A value that is neither a dict nor a list (Python scalars fall through
both `isinstance` checks in `flatten_dict`). -/
def PyVal.isScalar : PyVal → Bool
  | .dict _ => false
  | .list _ => false
  | _ => true

/-- One step of Python `dict` construction: assigning key `k` keeps the
key's first-insertion position but overwrites its value. -/
def insertPy (l : List (String × PyVal)) (k : String) (v : PyVal) :
    List (String × PyVal) :=
  match l with
  | [] => [(k, v)]
  | (k', v') :: t => if k' = k then (k', v) :: t else (k', v') :: insertPy t k v

/-- Python's `dict(items)` on a list of pairs: duplicate keys keep the
first occurrence's position and the last occurrence's value. -/
def dictOfList (l : List (String × PyVal)) : List (String × PyVal) :=
  l.foldl (fun acc kv => insertPy acc kv.1 kv.2) []

mutual

/-- Function `flatten_dict(d, parent_key, sep)` from `cli.py`: builds the item list
and returns `dict(items)`. -/
def flatten_dict (d : List (String × PyVal)) (parent_key : String)
    (sep : String) : List (String × PyVal) :=
  dictOfList (flattenItems d parent_key sep)

/-- The `for k, v in d.items()` loop body of `flatten_dict`, accumulating
`items`. -/
def flattenItems : List (String × PyVal) → String → String →
    List (String × PyVal)
  | [], _, _ => []
  | (k, v) :: rest, parent_key, sep =>
    let new_key := if parent_key = "" then k else parent_key ++ sep ++ k
    (match v with
     | .dict d2 => flatten_dict d2 new_key sep
     | .list elems => flattenList elems new_key sep 0
     | v => [(new_key, v)]) ++ flattenItems rest parent_key sep

/-- The `for i, item in enumerate(v)` inner loop of `flatten_dict`,
starting at index `i`. -/
def flattenList : List PyVal → String → String → Nat →
    List (String × PyVal)
  | [], _, _, _ => []
  | item :: rest, new_key, sep, i =>
    (match item with
     | .dict d2 => flatten_dict d2 (new_key ++ " [" ++ toString i ++ "]") sep
     | item => [(new_key ++ " [" ++ toString i ++ "]", item)]) ++
    flattenList rest new_key sep (i + 1)

end

/-- Flattening at the default arguments of `flatten_dict` (`parent_key=''`, `sep=': '`),
as used by `save_to_csv`. -/
def flattenReport (d : List (String × PyVal)) : List (String × PyVal) :=
  flatten_dict d "" ": "

example :
    flattenReport [("A", .dict [("B", .int 1), ("C", .int 2)])] =
      [("A: B", .int 1), ("A: C", .int 2)] := by
  simp [flattenReport, flatten_dict, flattenItems, flattenList, dictOfList,
    insertPy]

example :
    flattenReport [("A", .list [.int 1, .int 2])] =
      [("A [0]", .int 1), ("A [1]", .int 2)] := by
  simp [flattenReport, flatten_dict, flattenItems, flattenList, dictOfList,
    insertPy]
  rfl

mutual

/-- Number of scalar leaves of a value (everything that is not a dict or a
list counts as one leaf). -/
def scalarLeafCount : PyVal → Nat
  | .dict entries => scalarLeafEntries entries
  | .list elems => scalarLeafElems elems
  | _ => 1

/-- Scalar-leaf count of a dict's entry list. -/
def scalarLeafEntries : List (String × PyVal) → Nat
  | [] => 0
  | (_, v) :: rest => scalarLeafCount v + scalarLeafEntries rest

/-- Scalar-leaf count of a list's elements. -/
def scalarLeafElems : List PyVal → Nat
  | [] => 0
  | v :: rest => scalarLeafCount v + scalarLeafElems rest

end

/-! ## Rounding

Python's builtin `round` rounds half to even.  Floats are modelled by
rationals throughout. -/

/-- Python `round(q)` to an integer, half to even, as Python's builtin. -/
def roundHalfEven (q : ℚ) : ℤ :=
  if q - ⌊q⌋ < 1/2 then ⌊q⌋
  else if 1/2 < q - ⌊q⌋ then ⌊q⌋ + 1
  else if ⌊q⌋ % 2 = 0 then ⌊q⌋ else ⌊q⌋ + 1

/-- Python `round(q, 2)` over the rational model of floats. -/
def round2 (q : ℚ) : ℚ := (roundHalfEven (q * 100) : ℚ) / 100

/-- Python `round(q, 1)` over the rational model of floats. -/
def round1 (q : ℚ) : ℚ := (roundHalfEven (q * 10) : ℚ) / 10

/-! ## Collector getters

Each getter's interaction with the platform libraries (psutil, platform,
GPUtil) is modelled by passing in the query's outcome: `Except.ok` carries
the values the library calls would return; `Except.error e` models the
body of the getter raising an exception whose `str` is `e`. -/

/-- The `__version__` string in `cli.py`. -/
def version : String := "1.0.0"

/-- The object returned by `psutil.cpu_freq()` when it is not `None`. -/
structure CpuFreq where
  current : ℚ
  min : ℚ
  max : ℚ

/-- Values read by `get_cpu_info`'s try-block: `psutil.cpu_count` may
return `None` (hence `Option Int`), and `psutil.cpu_freq()` may return
`None` (hence `Option CpuFreq`). -/
structure CpuQuery where
  physicalCores : Option Int
  totalCores : Option Int
  freq : Option CpuFreq
  perCoreUsage : List ℚ
  totalUsage : ℚ

/-- A Python optional int as a value (`None` when absent). -/
def pyOfOptInt : Option Int → PyVal
  | some i => .int i
  | Option.none => .none

/-- Function `get_cpu_info()` from `cli.py`. -/
def get_cpu_info (q : Except String CpuQuery) : List (String × PyVal) :=
  match q with
  | .error e => [("Error", .str ("Failed to get CPU info: " ++ e))]
  | .ok c =>
    [("Physical cores", pyOfOptInt c.physicalCores),
     ("Total cores", pyOfOptInt c.totalCores),
     ("Max Frequency (MHz)",
       match c.freq with | some f => .rat f.max | Option.none => .str "N/A"),
     ("Min Frequency (MHz)",
       match c.freq with | some f => .rat f.min | Option.none => .str "N/A"),
     ("Current Frequency (MHz)",
       match c.freq with | some f => .rat f.current | Option.none => .str "N/A"),
     ("CPU Usage per Core (%)", .list (c.perCoreUsage.map PyVal.rat)),
     ("Total CPU Usage (%)", .rat c.totalUsage)]

/-- The fields of `psutil.virtual_memory()` used by `get_memory_info`:
byte counts and a usage percentage. -/
structure VirtualMemory where
  total : ℕ
  available : ℕ
  used : ℕ
  percent : ℚ

/-- Function `get_memory_info()` from `cli.py`. -/
def get_memory_info (q : Except String VirtualMemory) :
    List (String × PyVal) :=
  match q with
  | .error e => [("Error", .str ("Failed to get memory info: " ++ e))]
  | .ok m =>
    [("Total (GB)", .rat (round2 ((m.total : ℚ) / 1024 ^ 3))),
     ("Available (GB)", .rat (round2 ((m.available : ℚ) / 1024 ^ 3))),
     ("Used (GB)", .rat (round2 ((m.used : ℚ) / 1024 ^ 3))),
     ("Percentage (%)", .rat m.percent)]

/-- The fields of `psutil.disk_usage(...)` used by `get_disk_info`. -/
structure DiskUsage where
  total : ℕ
  used : ℕ
  free : ℕ
  percent : ℚ

/-- One partition from `psutil.disk_partitions()`, together with the
outcome of the `psutil.disk_usage(p.mountpoint)` call for it. -/
structure PartitionQuery where
  device : String
  mountpoint : String
  fstype : String
  usage : Except String DiskUsage

/-- The per-partition loop body of `get_disk_info`: the full record on
success, the `Device`/`Error` record when reading usage raises. -/
def diskEntry (p : PartitionQuery) : PyVal :=
  match p.usage with
  | .ok u => .dict
      [("Device", .str p.device),
       ("Mountpoint", .str p.mountpoint),
       ("File system type", .str p.fstype),
       ("Total Size (GB)", .rat (round2 ((u.total : ℚ) / 1024 ^ 3))),
       ("Used (GB)", .rat (round2 ((u.used : ℚ) / 1024 ^ 3))),
       ("Free (GB)", .rat (round2 ((u.free : ℚ) / 1024 ^ 3))),
       ("Percentage (%)", .rat u.percent)]
  | .error e => .dict
      [("Device", .str p.device),
       ("Error", .str ("Failed to read partition: " ++ e))]

/-- The `for p in partitions` loop of `get_disk_info`. -/
def diskLoop : List PartitionQuery → List PyVal
  | [] => []
  | p :: rest => diskEntry p :: diskLoop rest

/-- Function `get_disk_info()` from `cli.py`; `Except.error` models
`psutil.disk_partitions()` itself raising. -/
def get_disk_info (q : Except String (List PartitionQuery)) : List PyVal :=
  match q with
  | .ok ps => diskLoop ps
  | .error e => [.dict [("Error", .str ("Failed to get disk info: " ++ e))]]

/-- The values read from the `platform` module by `get_os_info`. -/
structure OsQuery where
  system : String
  node : String
  release : String
  osVersion : String
  machine : String
  processor : String

/-- Function `get_os_info()` from `cli.py`. -/
def get_os_info (q : Except String OsQuery) : List (String × PyVal) :=
  match q with
  | .error e => [("Error", .str ("Failed to get OS info: " ++ e))]
  | .ok o =>
    [("System", .str o.system),
     ("Node Name", .str o.node),
     ("Release", .str o.release),
     ("Version", .str o.osVersion),
     ("Machine", .str o.machine),
     ("Processor", .str o.processor)]

/-- One device from `GPUtil.getGPUs()`. -/
structure GpuQuery where
  id : Int
  name : String
  driver : String
  memoryTotal : ℚ
  memoryUsed : ℚ
  memoryFree : ℚ
  load : ℚ
  temperature : ℚ

/-- The per-device record built by `get_gpu_info`'s loop. -/
def gpuEntry (g : GpuQuery) : PyVal :=
  .dict
    [("ID", .int g.id),
     ("Name", .str g.name),
     ("Driver Version", .str g.driver),
     ("Memory Total (MB)", .rat g.memoryTotal),
     ("Memory Used (MB)", .rat g.memoryUsed),
     ("Memory Free (MB)", .rat g.memoryFree),
     ("Load (%)", .rat (round1 (g.load * 100))),
     ("Temperature (°C)", .rat g.temperature)]

/-- Function `get_gpu_info()` from `cli.py`: `hasGpu` is the module-level `HAS_GPU`
flag (whether the `GPUtil` import succeeded); the query is the outcome of
`GPUtil.getGPUs()`. -/
def get_gpu_info (hasGpu : Bool) (q : Except String (List GpuQuery)) :
    List PyVal :=
  if !hasGpu then [.dict [("Info", .str "GPUtil package not installed")]]
  else
    match q with
    | .error e => [.dict [("Error", .str ("Failed to get GPU info: " ++ e))]]
    | .ok gpus =>
      if gpus.isEmpty then [.dict [("Info", .str "No GPUs detected")]]
      else gpus.map gpuEntry

/-- The platform state a single run observes: the clock and the outcome of
each library query made by the five getters. -/
structure Env where
  timestamp : String
  osQ : Except String OsQuery
  cpuQ : Except String CpuQuery
  memQ : Except String VirtualMemory
  diskQ : Except String (List PartitionQuery)
  gpuHas : Bool
  gpuQ : Except String (List GpuQuery)

/-- Function `collect_all_info()` from `cli.py`: the SystemReport. -/
def collect_all_info (env : Env) : List (String × PyVal) :=
  [("Timestamp", .str env.timestamp),
   ("Version", .str version),
   ("OS Info", .dict (get_os_info env.osQ)),
   ("CPU Info", .dict (get_cpu_info env.cpuQ)),
   ("Memory Info", .dict (get_memory_info env.memQ)),
   ("Disk Info", .list (get_disk_info env.diskQ)),
   ("GPU Info", .list (get_gpu_info env.gpuHas env.gpuQ))]

/-! ## Reporter

`save_to_csv` is modelled by the list of rows handed to `csv.writer`
(value stringification happens inside the csv module); `save_to_json` by
the text `json.dump(data, ..., indent=4)` produces; `print_human_readable`
by the text it prints, in `Except` because Python evaluation of its
dynamic attribute/index operations can raise on malformed input. -/

/-- Decimal rendering of the rational model of a Python float, as `str()`
shows it.  Exact for integers and for the multiples of 1/100 the tool
produces via `round(·, 2)` and `round(·, 1)`; other rationals fall back to
the raw rational rendering. -/
def ratStr (q : ℚ) : String :=
  if q.den = 1 then toString q.num ++ ".0"
  else if (q * 100).den = 1 then
    let n := (q * 100).num
    let sign := if n < 0 then "-" else ""
    let m := n.natAbs
    let frac := m % 100
    sign ++ toString (m / 100) ++ "." ++
      (if frac % 10 = 0 then toString (frac / 10)
       else (if frac < 10 then "0" else "") ++ toString frac)
  else toString q

/-- Python `str()` of a scalar value. -/
def scalarStr : PyVal → String
  | .none => "None"
  | .int i => toString i
  | .rat q => ratStr q
  | .str s => s
  | .dict _ => ""
  | .list _ => ""

/-- A single-quote character, for Python `repr` of strings. -/
def squote : String := String.singleton (Char.ofNat 39)

mutual

/-- Python `repr()` of a value (strings single-quoted; containers
rendered recursively). -/
def pyRepr : PyVal → String
  | .str s => squote ++ s ++ squote
  | .dict entries => "\x7b" ++ pyReprEntries entries ++ "\x7d"
  | .list elems => "[" ++ pyReprElems elems ++ "]"
  | v => scalarStr v

/-- Python `repr` of a dict's entries, comma-separated. -/
def pyReprEntries : List (String × PyVal) → String
  | [] => ""
  | [(k, v)] => squote ++ k ++ squote ++ ": " ++ pyRepr v
  | (k, v) :: rest =>
    squote ++ k ++ squote ++ ": " ++ pyRepr v ++ ", " ++ pyReprEntries rest

/-- Python `repr` of a list's elements, comma-separated. -/
def pyReprElems : List PyVal → String
  | [] => ""
  | [v] => pyRepr v
  | v :: rest => pyRepr v ++ ", " ++ pyReprElems rest

end

/-- Python `str()` of a value, as f-string interpolation applies it. -/
def pyStr : PyVal → String
  | .dict entries => pyRepr (.dict entries)
  | .list elems => pyRepr (.list elems)
  | v => scalarStr v

/-- Python `d.get(k, default)` on a value known to be a dict. -/
def dictGet (d : List (String × PyVal)) (k : String) (dflt : PyVal) :
    PyVal :=
  (d.lookup k).getD dflt

/-- Python `x.get(k, default)` on an arbitrary value: dict lookup, or the
`AttributeError` Python raises when `x` has no `get` method. -/
def valGet (v : PyVal) (k : String) (dflt : PyVal) : Except String PyVal :=
  match v with
  | .dict entries => .ok ((entries.lookup k).getD dflt)
  | _ => .error "AttributeError"

/-- Python `x[0]` on an arbitrary value: list indexing (`IndexError` when empty),
first character of a string, `KeyError` on a string-keyed dict, and
`TypeError` on scalars. -/
def index0 : PyVal → Except String PyVal
  | .list [] => .error "IndexError"
  | .list (x :: _) => .ok x
  | .str s =>
    if s.isEmpty then .error "IndexError"
    else .ok (.str (String.singleton (s.get 0)))
  | .dict _ => .error "KeyError"
  | _ => .error "TypeError"

/-- Python `k in x` for a string `k`: key test on dicts, membership on lists,
substring test on strings, `TypeError` on scalars. -/
def containsKey (v : PyVal) (k : String) : Except String Bool :=
  match v with
  | .dict entries => .ok (entries.any (fun kv => kv.1 == k))
  | .list elems => .ok (elems.any (fun x => match x with
      | .str s => s == k
      | _ => false))
  | .str s => .ok (k.isEmpty || decide (2 ≤ (s.splitOn k).length))
  | _ => .error "TypeError"

/-- Function `print_human_readable(data)` from `cli.py`, as the text it prints
(each `print` contributes its line and a newline). -/
def print_human_readable (data : List (String × PyVal)) :
    Except String String := do
  let header := "\nSystem Specs Collector v" ++
    pyStr (dictGet data "Version" (.str "1.0.0")) ++ "\n" ++
    String.mk (List.replicate 50 '=') ++ "\n" ++
    "Timestamp: " ++ pyStr (dictGet data "Timestamp" .none) ++ "\n"
  let os_info := dictGet data "OS Info" (.dict [])
  let osSystem ← valGet os_info "System" (.str "N/A")
  let osVer ← valGet os_info "Version" (.str "N/A")
  let osMachine ← valGet os_info "Machine" (.str "N/A")
  let osBlock := "\nOperating System:\n" ++
    "  System: " ++ pyStr osSystem ++ "\n" ++
    "  Version: " ++ pyStr osVer ++ "\n" ++
    "  Machine: " ++ pyStr osMachine ++ "\n"
  let cpu_info := dictGet data "CPU Info" (.dict [])
  let physCores ← valGet cpu_info "Physical cores" (.str "N/A")
  let totCores ← valGet cpu_info "Total cores" (.str "N/A")
  let curFreq ← valGet cpu_info "Current Frequency (MHz)" (.str "N/A")
  let totUsage ← valGet cpu_info "Total CPU Usage (%)" (.str "N/A")
  let cpuBlock := "\nCPU Information:\n" ++
    "  Physical Cores: " ++ pyStr physCores ++ "\n" ++
    "  Total Cores: " ++ pyStr totCores ++ "\n" ++
    "  Current Frequency: " ++ pyStr curFreq ++ " MHz\n" ++
    "  Total Usage: " ++ pyStr totUsage ++ "%\n"
  let mem_info := dictGet data "Memory Info" (.dict [])
  let memTotal ← valGet mem_info "Total (GB)" (.str "N/A")
  let memUsed ← valGet mem_info "Used (GB)" (.str "N/A")
  let memPct ← valGet mem_info "Percentage (%)" (.str "N/A")
  let memBlock := "\nMemory Information:\n" ++
    "  Total: " ++ pyStr memTotal ++ " GB\n" ++
    "  Used: " ++ pyStr memUsed ++ " GB (" ++ pyStr memPct ++ "%)\n"
  let gpu_info ← index0 (dictGet data "GPU Info" (.list [.dict []]))
  let hasName ← containsKey gpu_info "Name"
  let hasId ← containsKey gpu_info "ID"
  let gpuBlock ←
    if hasName || hasId then do
      let gpuName ← valGet gpu_info "Name" (.str "N/A")
      let gpuMemUsed ← valGet gpu_info "Memory Used (MB)" (.str "N/A")
      let gpuMemTotal ← valGet gpu_info "Memory Total (MB)" (.str "N/A")
      let gpuLoad ← valGet gpu_info "Load (%)" (.str "N/A")
      pure ("\nGPU Information:\n" ++
        "  Name: " ++ pyStr gpuName ++ "\n" ++
        "  Memory: " ++ pyStr gpuMemUsed ++ "/" ++ pyStr gpuMemTotal ++
          " MB\n" ++
        "  Load: " ++ pyStr gpuLoad ++ "%\n")
    else pure ""
  return header ++ osBlock ++ cpuBlock ++ memBlock ++ gpuBlock

/-- Function `save_to_csv(data, ...)` from `cli.py`, as the rows it hands to the
csv writer: the header row then one `[key, value]` row per flattened
leaf. -/
def save_to_csv_rows (data : List (String × PyVal)) : List (List PyVal) :=
  [PyVal.str "Property", PyVal.str "Value"] ::
    (flatten_dict data "" ": ").map (fun kv => [PyVal.str kv.1, kv.2])

/-- JSON escaping of one character as `json.dump` applies it to the
characters the tool emits (quote, backslash, newline; other characters
pass through). -/
def jsonEscapeChar (c : Char) : String :=
  if c = Char.ofNat 34 then "\\" ++ String.singleton (Char.ofNat 34)
  else if c = '\\' then "\\\\"
  else if c = '\n' then "\\n"
  else String.singleton c

/-- JSON escaping over a character list. -/
def jsonEscapeList : List Char → String
  | [] => ""
  | c :: rest => jsonEscapeChar c ++ jsonEscapeList rest

/-- JSON escaping of a whole string. -/
def jsonEscape (s : String) : String := jsonEscapeList s.data

/-- A quoted, escaped JSON string. -/
def jsonQuote (s : String) : String :=
  String.singleton (Char.ofNat 34) ++ jsonEscape s ++
    String.singleton (Char.ofNat 34)

/-- Indentation of `n` spaces. -/
def jsonInd (n : Nat) : String := String.mk (List.replicate n ' ')

mutual

/-- Python `json.dump(v, ..., indent=4)` at current indentation `ind`. -/
def jsonDump : PyVal → Nat → String
  | .none, _ => "null"
  | .int i, _ => toString i
  | .rat q, _ => ratStr q
  | .str s, _ => jsonQuote s
  | .dict entries, ind =>
    match entries with
    | [] => "\x7b\x7d"
    | _ =>
      "\x7b\n" ++ jsonEntries entries (ind + 4) ++ "\n" ++ jsonInd ind ++
        "\x7d"
  | .list elems, ind =>
    match elems with
    | [] => "[]"
    | _ => "[\n" ++ jsonElems elems (ind + 4) ++ "\n" ++ jsonInd ind ++ "]"

/-- Serialized dict entries, one per line, comma-separated. -/
def jsonEntries : List (String × PyVal) → Nat → String
  | [], _ => ""
  | (k, v) :: rest, ind =>
    jsonInd ind ++ jsonQuote k ++ ": " ++ jsonDump v ind ++
      (match rest with
       | [] => ""
       | _ => ",\n" ++ jsonEntries rest ind)

/-- Serialized list elements, one per line, comma-separated. -/
def jsonElems : List PyVal → Nat → String
  | [], _ => ""
  | v :: rest, ind =>
    jsonInd ind ++ jsonDump v ind ++
      (match rest with
       | [] => ""
       | _ => ",\n" ++ jsonElems rest ind)

end

/-- Function `save_to_json(data, ...)` from `cli.py`, as the text written to the
file. -/
def save_to_json_text (data : List (String × PyVal)) : String :=
  jsonDump (.dict data) 0

/-- An environment in which every underlying platform query fails and the
GPU library is absent: every fact group of the resulting report is an
error or sentinel record. -/
def allErrEnv : Env where
  timestamp := "2026-01-01T00:00:00"
  osQ := .error "os down"
  cpuQ := .error "cpu down"
  memQ := .error "mem down"
  diskQ := .error "disk down"
  gpuHas := false
  gpuQ := .error "gpu down"

/-! ## Helper lemmas -/

/-- Inserting a fresh key appends it at the end. -/
lemma insertPy_not_mem (acc : List (String × PyVal)) (k : String)
    (v : PyVal) (h : k ∉ acc.map Prod.fst) :
    insertPy acc k v = acc ++ [(k, v)] := by
  induction acc with
  | nil => simp [insertPy]
  | cons kv t ih =>
    obtain ⟨k0, v0⟩ := kv
    simp only [List.map_cons, List.mem_cons, not_or] at h
    simp only [insertPy]
    rw [if_neg (fun hh => h.1 hh.symm), ih h.2]
    simp

/-- The fold behind `dictOfList` appends when all keys are fresh. -/
lemma dictOfList_go (l : List (String × PyVal))
    (acc : List (String × PyVal))
    (h : (acc.map Prod.fst ++ l.map Prod.fst).Nodup) :
    l.foldl (fun acc kv => insertPy acc kv.1 kv.2) acc = acc ++ l := by
  induction l generalizing acc with
  | nil => simp
  | cons kv t ih =>
    obtain ⟨k, v⟩ := kv
    simp only [List.map_cons] at h
    have h3 := (List.nodup_append.mp h).2.2
    have hk : k ∉ acc.map Prod.fst :=
      fun hmem => h3 hmem (List.mem_cons_self k _)
    rw [List.append_cons] at h
    rw [List.foldl_cons, insertPy_not_mem acc k v hk, ih (acc ++ [(k, v)])
      (by simpa using h)]
    simp

/-- Python `dict(items)` is the identity on duplicate-free key sequences. -/
lemma dictOfList_nodup (l : List (String × PyVal))
    (h : (l.map Prod.fst).Nodup) : dictOfList l = l := by
  simpa [dictOfList] using dictOfList_go l [] (by simpa using h)

/-- With the empty parent key, the item loop reproduces entries whose
values are all scalars. -/
lemma flattenItems_scalar (d : List (String × PyVal)) (sep : String)
    (hflat : ∀ kv ∈ d, kv.2.isScalar = true) :
    flattenItems d "" sep = d := by
  induction d with
  | nil => simp [flattenItems]
  | cons kv rest ih =>
    obtain ⟨k, v⟩ := kv
    have hv : v.isScalar = true := hflat (k, v) (by simp)
    have hrest : ∀ kv ∈ rest, kv.2.isScalar = true :=
      fun kv h => hflat kv (List.mem_cons_of_mem _ h)
    cases v <;> simp_all [flattenItems, PyVal.isScalar] <;> exact ih hrest

/-! ## Claims about `flatten_dict` -/

/-- C1: for a nested mapping value, `flatten_dict` recurses with the path
extended by the parent key, the separator and the child key; flattening
`{"A": {"B": 1, "C": 2}}` with the default separator `": "` yields exactly
`{"A: B": 1, "A: C": 2}`. -/
theorem flatten_nested_mapping :
    (∀ (k : String) (d2 rest : List (String × PyVal)) (p sep : String),
        p ≠ "" →
        flattenItems ((k, .dict d2) :: rest) p sep =
          flatten_dict d2 (p ++ sep ++ k) sep ++ flattenItems rest p sep) ∧
    flattenReport [("A", .dict [("B", .int 1), ("C", .int 2)])] =
      [("A: B", .int 1), ("A: C", .int 2)] := by
  constructor
  · intro k d2 rest p sep hp
    simp [flattenItems, hp]
  · simp [flattenReport, flatten_dict, flattenItems, flattenList,
      dictOfList, insertPy]

/-- Witness for C1 at a concrete nonempty parent key. -/
theorem flatten_nested_mapping_witness :
    flattenItems [("B", .dict [("C", .int 3)])] "A" ": " =
      flatten_dict [("C", .int 3)] ("A" ++ ": " ++ "B") ": " ++
        flattenItems [] "A" ": " :=
  flatten_nested_mapping.1 "B" [("C", .int 3)] [] "A" ": " (by decide)

/-- C2: for a list value, each element's path gains " [&lt;index&gt;]"; a
mapping element is recursed into, a scalar element is emitted directly;
flattening `{"A": [1, 2]}` yields exactly `{"A [0]": 1, "A [1]": 2}`. -/
theorem flatten_list_indexing :
    (∀ (item : PyVal) (rest : List PyVal) (nk sep : String) (i : ℕ),
        item.isScalar = true →
        flattenList (item :: rest) nk sep i =
          (nk ++ " [" ++ toString i ++ "]", item) ::
            flattenList rest nk sep (i + 1)) ∧
    (∀ (d2 : List (String × PyVal)) (rest : List PyVal) (nk sep : String)
        (i : ℕ),
        flattenList (PyVal.dict d2 :: rest) nk sep i =
          flatten_dict d2 (nk ++ " [" ++ toString i ++ "]") sep ++
            flattenList rest nk sep (i + 1)) ∧
    flattenReport [("A", .list [.int 1, .int 2])] =
      [("A [0]", .int 1), ("A [1]", .int 2)] := by
  refine ⟨?_, ?_, ?_⟩
  · intro item rest nk sep i hs
    cases item <;> simp_all [flattenList, PyVal.isScalar]
  · intro d2 rest nk sep i
    simp [flattenList]
  · simp [flattenReport, flatten_dict, flattenItems, flattenList,
      dictOfList, insertPy]
    rfl

/-- Witness for C2 at a concrete scalar element. -/
theorem flatten_list_indexing_witness :
    flattenList [.int 5] "A" ": " 0 =
      ("A" ++ " [" ++ toString 0 ++ "]", .int 5) ::
        flattenList [] "A" ": " 1 :=
  flatten_list_indexing.1 (.int 5) [] "A" ": " 0 (by decide)

/-- C3: on a mapping with duplicate-free keys whose values are all
scalars (no nested mappings, no sequences), `flatten_dict` is the
identity: the same (path, value) pairs in the same order, each path the
original key. -/
theorem flatten_flat_identity (d : List (String × PyVal)) (sep : String)
    (hkeys : (d.map Prod.fst).Nodup)
    (hflat : ∀ kv ∈ d, kv.2.isScalar = true) :
    flatten_dict d "" sep = d := by
  simp only [flatten_dict]
  rw [flattenItems_scalar d sep hflat, dictOfList_nodup d hkeys]

/-- Witness for C3 on a concrete flat mapping. -/
theorem flatten_flat_identity_witness :
    flatten_dict [("x", .int 1), ("y", .str "s")] "" ": " =
      [("x", .int 1), ("y", .str "s")] :=
  flatten_flat_identity [("x", .int 1), ("y", .str "s")] ": "
    (by simp) (by intro kv h; fin_cases h <;> rfl)

/-- C10: two distinct scalar leaves can flatten to the same path string;
on `{"A": {"B": 1}, "A: B": 2}` the pair built later silently overwrites
the earlier one, so the output has fewer pairs than the input has scalar
leaves. -/
theorem flatten_path_collision :
    flattenReport [("A", .dict [("B", .int 1)]), ("A: B", .int 2)] =
      [("A: B", .int 2)] ∧
    scalarLeafEntries [("A", .dict [("B", .int 1)]), ("A: B", .int 2)] =
      2 ∧
    (flattenReport
        [("A", .dict [("B", .int 1)]), ("A: B", .int 2)]).length <
      scalarLeafEntries [("A", .dict [("B", .int 1)]), ("A: B", .int 2)] := by
  refine ⟨?_, ?_, ?_⟩ <;>
    simp [flattenReport, flatten_dict, flattenItems, flattenList,
      dictOfList, insertPy, scalarLeafEntries, scalarLeafCount]

/-! ## Claims about the getters -/

/-- C5: `get_gpu_info` returns the package-absent sentinel whenever the
GPUtil import failed, the no-devices sentinel on an empty device list, and
the error marker when the device query raises. -/
theorem gpu_info_sentinels :
    (∀ q, get_gpu_info false q =
        [.dict [("Info", .str "GPUtil package not installed")]]) ∧
    get_gpu_info true (.ok []) =
      [.dict [("Info", .str "No GPUs detected")]] ∧
    (∀ e, get_gpu_info true (.error e) =
        [.dict [("Error", .str ("Failed to get GPU info: " ++ e))]]) :=
  ⟨fun _ => rfl, rfl, fun _ => rfl⟩

/-- The disk loop distributes over concatenation of the partition list. -/
lemma diskLoop_append (ps1 ps2 : List PartitionQuery) :
    diskLoop (ps1 ++ ps2) = diskLoop ps1 ++ diskLoop ps2 := by
  induction ps1 with
  | nil => rfl
  | cons p t ih => simp [diskLoop, ih]

/-- C6: a failing partition only replaces its own entry with the
`Device`/`Error` record, leaving every other partition's entry unchanged;
a failing enumeration yields the single-element error list. -/
theorem disk_failure_isolation :
    (∀ e, get_disk_info (.error e) =
        [.dict [("Error", .str ("Failed to get disk info: " ++ e))]]) ∧
    (∀ (ps1 : List PartitionQuery) (p : PartitionQuery)
        (ps2 : List PartitionQuery),
        get_disk_info (.ok (ps1 ++ p :: ps2)) =
          get_disk_info (.ok ps1) ++
            diskEntry p :: get_disk_info (.ok ps2)) ∧
    (∀ (p : PartitionQuery) (e : String), p.usage = .error e →
        diskEntry p = .dict [("Device", .str p.device),
          ("Error", .str ("Failed to read partition: " ++ e))]) := by
  refine ⟨fun e => rfl, ?_, ?_⟩
  · intro ps1 p ps2
    simp [get_disk_info, diskLoop_append, diskLoop]
  · intro p e h
    simp [diskEntry, h]

/-- Witness for C6 on a concrete unreadable partition. -/
theorem disk_failure_isolation_witness :
    diskEntry ⟨"/dev/sda1", "/", "ext4", .error "denied"⟩ =
      .dict [("Device", .str "/dev/sda1"),
        ("Error", .str ("Failed to read partition: " ++ "denied"))] :=
  disk_failure_isolation.2.2 ⟨"/dev/sda1", "/", "ext4", .error "denied"⟩
    "denied" rfl

/-- C7: every getter maps a failing query to its inline error-marker
record rather than propagating, and the report always carries exactly the
seven top-level keys. -/
theorem getters_total_report_keys :
    (∀ env : Env, (collect_all_info env).map Prod.fst =
        ["Timestamp", "Version", "OS Info", "CPU Info", "Memory Info",
         "Disk Info", "GPU Info"]) ∧
    (∀ e, get_os_info (.error e) =
        [("Error", .str ("Failed to get OS info: " ++ e))]) ∧
    (∀ e, get_cpu_info (.error e) =
        [("Error", .str ("Failed to get CPU info: " ++ e))]) ∧
    (∀ e, get_memory_info (.error e) =
        [("Error", .str ("Failed to get memory info: " ++ e))]) ∧
    (∀ e, get_disk_info (.error e) =
        [.dict [("Error", .str ("Failed to get disk info: " ++ e))]]) ∧
    (∀ e, get_gpu_info true (.error e) =
        [.dict [("Error", .str ("Failed to get GPU info: " ++ e))]]) :=
  ⟨fun _ => rfl, fun _ => rfl, fun _ => rfl, fun _ => rfl, fun _ => rfl,
    fun _ => rfl⟩

/-- C8: on success `get_memory_info` reports total, available and used
memory as bytes divided by 1024³ and rounded (half to even, as Python's
`round`) to 2 decimal places, plus the usage percentage; e.g. 8 000 000 000
bytes render as 7.45 GB. -/
theorem memory_info_gigabytes (m : VirtualMemory) :
    ((get_memory_info (.ok m)).lookup "Total (GB)" =
      some (.rat (round2 ((m.total : ℚ) / 1024 ^ 3))) ∧
    (get_memory_info (.ok m)).lookup "Available (GB)" =
      some (.rat (round2 ((m.available : ℚ) / 1024 ^ 3))) ∧
    (get_memory_info (.ok m)).lookup "Used (GB)" =
      some (.rat (round2 ((m.used : ℚ) / 1024 ^ 3))) ∧
    (get_memory_info (.ok m)).lookup "Percentage (%)" =
      some (.rat m.percent)) ∧
    (get_memory_info
        (.ok ⟨8000000000, 4000000000, 2000000000, 50⟩)).lookup
      "Total (GB)" = some (.rat (149/20)) := by
  refine ⟨⟨rfl, rfl, rfl, rfl⟩, ?_⟩
  have h : round2 ((8000000000 : ℚ) / 1024 ^ 3) = 149/20 := by
    norm_num [round2, roundHalfEven]
  simp [get_memory_info, List.lookup, h]

/-! ## Claims about the reporter -/

/-- The CSV table always has one header row plus one row per flattened
leaf. -/
lemma save_to_csv_rows_length (data : List (String × PyVal)) :
    (save_to_csv_rows data).length = (flattenReport data).length + 1 := by
  simp [save_to_csv_rows, flattenReport]

/-- C9: the CSV rows are the header `["Property", "Value"]` followed by
one two-column row per flattened leaf, in flattening order; N leaves give
exactly N + 1 rows. -/
theorem csv_rows_shape (data : List (String × PyVal)) :
    (save_to_csv_rows data).length = (flattenReport data).length + 1 ∧
    (save_to_csv_rows data).head? =
      some [PyVal.str "Property", PyVal.str "Value"] ∧
    ∀ (i : ℕ) (k : String) (v : PyVal),
      (flattenReport data)[i]? = some (k, v) →
      (save_to_csv_rows data)[i + 1]? = some [PyVal.str k, v] := by
  refine ⟨save_to_csv_rows_length data, rfl, ?_⟩
  · intro i k v h
    simp only [flattenReport] at h
    simp only [save_to_csv_rows, List.getElem?_cons_succ,
      List.getElem?_map, h]
    rfl

/-- Witness for C9 on a concrete one-leaf report. -/
theorem csv_rows_shape_witness :
    (save_to_csv_rows [("K", PyVal.int 7)])[0 + 1]? =
      some [PyVal.str "K", PyVal.int 7] :=
  (csv_rows_shape [("K", PyVal.int 7)]).2.2 0 "K" (PyVal.int 7) (by
    simp [flattenReport, flatten_dict, flattenItems, dictOfList, insertPy])

/-- The GPU group is never an empty list and always starts with a dict
record, whatever the environment. -/
lemma gpu_info_head_dict (h : Bool) (q : Except String (List GpuQuery)) :
    ∃ entries rest, get_gpu_info h q = .dict entries :: rest := by
  cases h
  · exact ⟨_, _, rfl⟩
  · cases q with
    | error e => exact ⟨_, _, rfl⟩
    | ok l =>
      cases l with
      | nil => exact ⟨_, _, rfl⟩
      | cons g gs => exact ⟨_, _, rfl⟩

set_option maxRecDepth 40000 in
/-- C4: rendering a collected SystemReport never raises in any of the
three formats — the text renderer succeeds for every environment, and on
the all-error report (every fact group an error or sentinel record) the
text output falls back to "N/A" for each of its ten curated fields while
the CSV and JSON renderers still produce their full output. -/
theorem report_rendering_total :
    (∀ env : Env,
        (print_human_readable (collect_all_info env)).isOk = true) ∧
    print_human_readable (collect_all_info allErrEnv) =
      .ok ("\nSystem Specs Collector v1.0.0\n" ++
        "=========================" ++ "=========================" ++
        "\nTimestamp: 2026-01-01T00:00:00\n\nOperating System:\n  System: N/A\n  Version: N/A\n  Machine: N/A\n\nCPU Information:\n  Physical Cores: N/A\n  Total Cores: N/A\n  Current Frequency: N/A MHz\n  Total Usage: N/A%\n\nMemory Information:\n  Total: N/A GB\n  Used: N/A GB (N/A%)\n") ∧
    save_to_json_text (collect_all_info allErrEnv) =
      "\x7b\n    \"Timestamp\": \"2026-01-01T00:00:00\",\n    \"Version\": \"1.0.0\",\n    \"OS Info\": \x7b\n        \"Error\": \"Failed to get OS info: os down\"\n    \x7d,\n    \"CPU Info\": \x7b\n        \"Error\": \"Failed to get CPU info: cpu down\"\n    \x7d,\n    \"Memory Info\": \x7b\n        \"Error\": \"Failed to get memory info: mem down\"\n    \x7d,\n    \"Disk Info\": [\n        \x7b\n            \"Error\": \"Failed to get disk info: disk down\"\n        \x7d\n    ],\n    \"GPU Info\": [\n        \x7b\n            \"Info\": \"GPUtil package not installed\"\n        \x7d\n    ]\n\x7d" ∧
    (save_to_csv_rows (collect_all_info allErrEnv)).length =
      (flattenReport (collect_all_info allErrEnv)).length + 1 := by
  refine ⟨?_, ?_, ?_, ?_⟩
  · intro env
    obtain ⟨ts, osQ, cpuQ, memQ, diskQ, gpuHas, gpuQ⟩ := env
    cases gpuHas
    · rfl
    · cases gpuQ with
      | error e => rfl
      | ok l =>
        cases l with
        | nil => rfl
        | cons g gs => rfl
  · rfl
  · simp only [save_to_json_text, collect_all_info, allErrEnv, version,
      get_os_info, get_cpu_info, get_memory_info, get_disk_info,
      get_gpu_info, jsonDump, jsonEntries, jsonElems]
    rfl
  · exact save_to_csv_rows_length _
